import Mathlib

/-!
Verification of the NDB operator's reconciliation engine and admission
controller: a shallow embedding of the Go sources (webhook admission
controller, controller event handlers, worker loop and sync handler)
with proofs of the specified properties.
-/

/-- Status sub-object of an NdbCluster resource: `ProcessedGeneration` is the
last generation fully reconciled by the sync engine. -/
structure NdbStatus where
  processedGeneration : Int
  deriving DecidableEq, Repr

/-- The `Mysqld` section of the NdbCluster spec (the SQL-gateway role).
Only the field read by the embedded code is carried. -/
structure MysqldSpec where
  nodeCount : Int
  deriving DecidableEq, Repr

/-- NdbCluster spec: `Mysqld` is a pointer in Go, hence an `Option` here. -/
structure NdbClusterSpec where
  mysqld : Option MysqldSpec
  deriving DecidableEq, Repr

/-- The NdbCluster custom resource, restricted to the metadata and status
fields the embedded control logic reads. `generation` is bumped by the API
server on every spec write; `resourceVersion` changes on any write. -/
structure NdbCluster where
  generation : Int
  resourceVersion : String
  status : NdbStatus
  spec : NdbClusterSpec
  deriving DecidableEq, Repr

/-! ## Admission controller (src/pkg/webhook/ndb_admission_controller.go) -/

/-- Outcome of an admission check. `requestDenied` with a
`NewTooManyRequestsError` is kept distinct from `requestDeniedNdbInvalid`
(a validation failure carrying an error list), mirroring the two deny
helpers of the webhook package. -/
inductive AdmissionVerdict
  | allowed
  | deniedTooManyRequests (msg : String)
  | deniedInvalid
  deriving DecidableEq, Repr

/-- `ndbAdmissionController.validateUpdate`: deny with a retryable
too-many-requests error while a previous update is still being applied
(`old.Status.ProcessedGeneration != old.Generation`); otherwise validate the
spec delta with `IsValidSpecUpdate`. The body of `IsValidSpecUpdate` is
outside the embedded sources, so it is passed in as a parameter. -/
def validateUpdate (isValidSpecUpdate : NdbCluster → NdbCluster → Bool)
    (oldNC newNC : NdbCluster) : AdmissionVerdict :=
  if oldNC.status.processedGeneration ≠ oldNC.generation then
    .deniedTooManyRequests "previous update to the Ndb resource is still being applied"
  else if isValidSpecUpdate oldNC newNC then
    .allowed
  else
    .deniedInvalid

/-- JSON values occurring in the webhook's patch operations: a number, or the
one-field object literal `map[string]interface\x7b\x7d\x7b"nodeCount": 1\x7d`. -/
inductive JsonValue
  | num (n : Int)
  | singletonObj (key : String) (n : Int)
  deriving DecidableEq, Repr

/-- A JSON patch operation `\x7bop, path, value\x7d` as built by
`newJsonPatchOperation`. -/
structure JsonPatchOperation where
  op : String
  path : String
  value : JsonValue
  deriving DecidableEq, Repr

/-- JSONPath operation type constant. -/
def ADD : String := "add"

/-- JSONPath operation type constant. -/
def REPLACE : String := "replace"

/-- `newJsonPatchOperation(operation, path, value)`. -/
def newJsonPatchOperation (operation path : String) (value : JsonValue) :
    JsonPatchOperation :=
  ⟨operation, path, value⟩

/-- `ndbAdmissionController.mutate`: always attach at least one MySQL Server.
If the mysqld section is absent, add one with nodeCount 1; if its nodeCount
is 0, replace it with 1; otherwise no mutation (`nil` patch, here `none`).
JSON marshalling of the operation list is an injective encoding and is
omitted: the result is the operation list itself. -/
def mutate (nc : NdbCluster) : Option (List JsonPatchOperation) :=
  match nc.spec.mysqld with
  | none =>
      some [newJsonPatchOperation ADD "/spec/mysqld" (.singletonObj "nodeCount" 1)]
  | some m =>
      if m.nodeCount = 0 then
        some [newJsonPatchOperation REPLACE "/spec/mysqld/nodeCount" (.num 1)]
      else
        none

/-- RFC 6902 application of one patch operation to an NdbCluster, restricted
to the two paths the webhook emits. On an object member path both `add` and
`replace` set the member; unknown paths leave the object unchanged. -/
def applyJsonPatchOp (nc : NdbCluster) (p : JsonPatchOperation) : NdbCluster :=
  if p.path = "/spec/mysqld" then
    match p.value with
    | .singletonObj "nodeCount" n =>
        { nc with spec := { nc.spec with mysqld := some ⟨n⟩ } }
    | _ => nc
  else if p.path = "/spec/mysqld/nodeCount" then
    match p.value, nc.spec.mysqld with
    | .num n, some m =>
        { nc with spec := { nc.spec with mysqld := some { m with nodeCount := n } } }
    | _, _ => nc
  else
    nc

/-- Apply the patch returned by `mutate` (no patch means the object is left
as-is). -/
def applyMutation (nc : NdbCluster) : NdbCluster :=
  match mutate nc with
  | none => nc
  | some ops => ops.foldl applyJsonPatchOp nc

/-! ## Claims about the admission controller -/

/-- Claim C1: whenever the old object's `status.processedGeneration` differs
from its `generation`, `validateUpdate` returns the retryable
too-many-requests deny — not a validation failure — for every new object and
every spec-delta validator (the validator is never consulted). -/
theorem validateUpdate_busy_denies_tooManyRequests
    (isValidSpecUpdate : NdbCluster → NdbCluster → Bool)
    (oldNC newNC : NdbCluster)
    (h : oldNC.status.processedGeneration ≠ oldNC.generation) :
    validateUpdate isValidSpecUpdate oldNC newNC =
      .deniedTooManyRequests "previous update to the Ndb resource is still being applied" := by
  simp [validateUpdate, h]

/-- Witness for C1 at a concrete busy resource. -/
theorem validateUpdate_busy_denies_tooManyRequests_witness :
    validateUpdate (fun _ _ => true)
      ⟨2, "7", ⟨1⟩, ⟨some ⟨3⟩⟩⟩ ⟨3, "8", ⟨1⟩, ⟨some ⟨3⟩⟩⟩ =
      .deniedTooManyRequests "previous update to the Ndb resource is still being applied" :=
  validateUpdate_busy_denies_tooManyRequests (fun _ _ => true) _ _ (by decide)

/-- Claim C3: `mutate` performs exactly the SQL-gateway defaulting (add a
mysqld section with nodeCount 1 when absent; replace a zero nodeCount with 1)
and is idempotent: applying the returned patch and mutating again yields no
patch. -/
theorem mutate_defaulting_and_idempotent (nc : NdbCluster) :
    (nc.spec.mysqld = none →
      mutate nc =
        some [newJsonPatchOperation ADD "/spec/mysqld" (.singletonObj "nodeCount" 1)]) ∧
    (∀ m, nc.spec.mysqld = some m → m.nodeCount = 0 →
      mutate nc =
        some [newJsonPatchOperation REPLACE "/spec/mysqld/nodeCount" (.num 1)]) ∧
    mutate (applyMutation nc) = none := by
  obtain ⟨gen, rv, st, ⟨mysqld⟩⟩ := nc
  refine ⟨?_, ?_, ?_⟩
  · intro h
    simp only at h
    subst h
    rfl
  · intro m hm h0
    simp only at hm
    subst hm
    simp [mutate, h0]
  · match mysqld with
    | none => rfl
    | some m =>
        by_cases h0 : m.nodeCount = 0
        · simp [applyMutation, mutate, h0, applyJsonPatchOp, newJsonPatchOperation,
            REPLACE]
        · simp [applyMutation, mutate, h0]

/-- Witness for C3: both defaulting branches fire at concrete objects and the
second `mutate` is empty. -/
theorem mutate_defaulting_and_idempotent_witness :
    (mutate ⟨1, "1", ⟨1⟩, ⟨none⟩⟩ =
      some [newJsonPatchOperation ADD "/spec/mysqld" (.singletonObj "nodeCount" 1)]) ∧
    (mutate ⟨1, "1", ⟨1⟩, ⟨some ⟨0⟩⟩⟩ =
      some [newJsonPatchOperation REPLACE "/spec/mysqld/nodeCount" (.num 1)]) ∧
    mutate (applyMutation ⟨1, "1", ⟨1⟩, ⟨some ⟨0⟩⟩⟩) = none :=
  ⟨(mutate_defaulting_and_idempotent ⟨1, "1", ⟨1⟩, ⟨none⟩⟩).1 rfl,
   (mutate_defaulting_and_idempotent ⟨1, "1", ⟨1⟩, ⟨some ⟨0⟩⟩⟩).2.1 ⟨0⟩ rfl rfl,
   (mutate_defaulting_and_idempotent ⟨1, "1", ⟨1⟩, ⟨some ⟨0⟩⟩⟩).2.2⟩

/-! ## Event router (src/unnamed/part_001, NewController event handlers) -/

/-- `NdbCluster` informer `UpdateFunc`: `true` when the handler adds the key
to the work queue, `false` when it returns without enqueueing. Branches in
source order: generation changed → enqueue; only resourceVersion changed
(status-only write) → skip; resync with reconciliation already underway
(`Generation != Status.ProcessedGeneration`) → skip; otherwise → enqueue for
periodic reconciliation. -/
def ndbClusterUpdateFunc (oldNdb newNdb : NdbCluster) : Bool :=
  if oldNdb.generation ≠ newNdb.generation then
    true
  else if oldNdb.resourceVersion ≠ newNdb.resourceVersion then
    false
  else if oldNdb.generation ≠ oldNdb.status.processedGeneration then
    false
  else
    true

/-- Key separator used in `extractAndEnqueueNdbCluster`
(`obj.GetNamespace() + Separator + ndbClusterName`); keys are of the form
`namespace/name`. -/
def Separator : String := "/"

/-- Modelled from the spec: `constants.ClusterLabel`, the identity label the
controller puts on owned workloads, is declared outside the embedded
sources; its exact value is irrelevant to the routing logic. -/
def ClusterLabel : String := "mysql.oracle.com/ndb-cluster"

/-- Go map lookup `labels[key]` returning an `Option`. -/
def lookupLabel (labels : List (String × String)) (key : String) : Option String :=
  (labels.find? (fun p => p.1 == key)).map (·.2)

/-- A deployment owned (or not) by an NdbCluster. `complete` records the
verdict of `deploymentComplete`, whose body is outside the embedded sources;
the routing logic only consumes its boolean outcome on the object it is
given. -/
structure Deployment where
  nsName : String
  name : String
  labels : List (String × String)
  complete : Bool
  deriving DecidableEq, Repr

/-- Modelled from the spec: `deploymentComplete` (the terminal "complete"
predicate on a deployment's status) is not under the embedded sources; its
observed verdict is carried as a field of the object. -/
def deploymentComplete (d : Deployment) : Bool := d.complete

/-- A statefulset owned (or not) by an NdbCluster; `ready` records the
verdict of `statefulsetReady` as for `Deployment.complete`. -/
structure StatefulSet where
  nsName : String
  name : String
  labels : List (String × String)
  ready : Bool
  deriving DecidableEq, Repr

/-- Modelled from the spec: `statefulsetReady` (the terminal "ready"
predicate on a statefulset's status) is not under the embedded sources; its
observed verdict is carried as a field of the object. -/
def statefulsetReady (s : StatefulSet) : Bool := s.ready

/-- The deployment informer's `FilterFunc`: keep only objects carrying the
NdbCluster identity label. -/
def deploymentFilter (d : Deployment) : Bool :=
  (lookupLabel d.labels ClusterLabel).isSome

/-- The statefulset informer's `FilterFunc` (same label check). -/
def statefulSetFilter (s : StatefulSet) : Bool :=
  (lookupLabel s.labels ClusterLabel).isSome

/-- `Controller.extractAndEnqueueNdbCluster` on a deployment: namespace +
Separator + the owner name read from the identity label (a missing Go map
key reads as the empty string). -/
def deploymentOwnerKey (d : Deployment) : String :=
  d.nsName ++ Separator ++ (lookupLabel d.labels ClusterLabel).getD ""

/-- `Controller.extractAndEnqueueNdbCluster` on a statefulset. -/
def statefulSetOwnerKey (s : StatefulSet) : String :=
  s.nsName ++ Separator ++ (lookupLabel s.labels ClusterLabel).getD ""

/-- A change notification for an owned-workload kind. -/
inductive WorkloadEvent
  | deploymentUpdate (oldD newD : Deployment)
  | deploymentDelete (d : Deployment)
  | statefulSetUpdate (oldS newS : StatefulSet)
  | statefulSetDelete (s : StatefulSet)
  deriving DecidableEq, Repr

/-- The workload event handlers registered by `NewController`, wrapped in
`cache.FilteringResourceEventHandler` semantics (an update whose filter
verdict flips is downgraded by the library to an add or a delete of the
passing side; a handler with no function registered for an event kind drops
it). The result is the list of keys enqueued on the work queue:
  * deployment handler: `UpdateFunc` enqueues when `deploymentComplete(new)`;
    `DeleteFunc` always enqueues; no `AddFunc`;
  * statefulset handler: `UpdateFunc` enqueues when `statefulsetReady(new)`;
    no `AddFunc` and no `DeleteFunc`. -/
def routeWorkloadEvent : WorkloadEvent → List String
  | .deploymentUpdate oldD newD =>
      match deploymentFilter newD, deploymentFilter oldD with
      | true, true =>
          if deploymentComplete newD then [deploymentOwnerKey newD] else []
      | true, false => []
      | false, true => [deploymentOwnerKey oldD]
      | false, false => []
  | .deploymentDelete d =>
      if deploymentFilter d then [deploymentOwnerKey d] else []
  | .statefulSetUpdate oldS newS =>
      match statefulSetFilter newS, statefulSetFilter oldS with
      | true, true =>
          if statefulsetReady newS then [statefulSetOwnerKey newS] else []
      | _, _ => []
  | .statefulSetDelete _ => []

/-! ## Claims about the event router -/

/-- Claim C5: on an NdbCluster update with unchanged generation but changed
resourceVersion (a status-only write) the router never enqueues; on an update
with changed generation it always enqueues. -/
theorem ndbClusterUpdate_status_write_and_generation (o n : NdbCluster) :
    (o.generation = n.generation → o.resourceVersion ≠ n.resourceVersion →
      ndbClusterUpdateFunc o n = false) ∧
    (o.generation ≠ n.generation → ndbClusterUpdateFunc o n = true) := by
  constructor
  · intro hg hrv
    simp [ndbClusterUpdateFunc, hg, hrv]
  · intro hg
    simp [ndbClusterUpdateFunc, hg]

/-- Witness for C5: a status-only write is skipped, a generation bump is
enqueued, at concrete objects. -/
theorem ndbClusterUpdate_status_write_and_generation_witness :
    ndbClusterUpdateFunc ⟨1, "5", ⟨1⟩, ⟨none⟩⟩ ⟨1, "6", ⟨1⟩, ⟨none⟩⟩ = false ∧
    ndbClusterUpdateFunc ⟨1, "5", ⟨1⟩, ⟨none⟩⟩ ⟨2, "6", ⟨1⟩, ⟨none⟩⟩ = true :=
  ⟨(ndbClusterUpdate_status_write_and_generation ⟨1, "5", ⟨1⟩, ⟨none⟩⟩
      ⟨1, "6", ⟨1⟩, ⟨none⟩⟩).1 rfl (by decide),
   (ndbClusterUpdate_status_write_and_generation ⟨1, "5", ⟨1⟩, ⟨none⟩⟩
      ⟨2, "6", ⟨1⟩, ⟨none⟩⟩).2 (by decide)⟩

/-- Claim C4 counterexample: on a resync (generation and resourceVersion both
unchanged) of a resource with outstanding work
(`generation ≠ status.processedGeneration`) the router does NOT enqueue,
contradicting the claim that it enqueues exactly when there is outstanding
work; conversely it does enqueue when there is none. -/
theorem ndbClusterUpdate_resync_claim_counterexample :
    ndbClusterUpdateFunc ⟨2, "5", ⟨1⟩, ⟨none⟩⟩ ⟨2, "5", ⟨1⟩, ⟨none⟩⟩ = false ∧
    (2 : Int) ≠ (1 : Int) ∧
    ndbClusterUpdateFunc ⟨2, "5", ⟨2⟩, ⟨none⟩⟩ ⟨2, "5", ⟨2⟩, ⟨none⟩⟩ = true := by
  refine ⟨by decide, by decide, by decide⟩

/-- Claim C4 (amended): on a resync with generation and resourceVersion both
unchanged, the router enqueues iff generation EQUALS
status.processedGeneration (periodic reconciliation of a fully processed
resource); when they differ, reconciliation is already underway and the
enqueue is skipped. -/
theorem ndbClusterUpdate_resync_enqueue_iff_processed (o n : NdbCluster)
    (hg : o.generation = n.generation) (hrv : o.resourceVersion = n.resourceVersion) :
    ndbClusterUpdateFunc o n = true ↔
      o.generation = o.status.processedGeneration := by
  by_cases hp : o.generation = o.status.processedGeneration
  · simp [ndbClusterUpdateFunc, hg, hrv, hp]
  · simp [ndbClusterUpdateFunc, hg, hrv, hp]

/-- Witness for the amended C4 at a concrete resync event. -/
theorem ndbClusterUpdate_resync_enqueue_iff_processed_witness :
    (ndbClusterUpdateFunc ⟨2, "5", ⟨2⟩, ⟨none⟩⟩ ⟨2, "5", ⟨2⟩, ⟨none⟩⟩ = true ↔
      (2 : Int) = (2 : Int)) :=
  ndbClusterUpdate_resync_enqueue_iff_processed
    ⟨2, "5", ⟨2⟩, ⟨none⟩⟩ ⟨2, "5", ⟨2⟩, ⟨none⟩⟩ rfl rfl

/-- Claim C6 counterexample: a statefulset carrying the identity label is
deleted, yet the router enqueues nothing — the statefulset informer handler
registers no `DeleteFunc`, so the claim "on delete of any owned workload
kind, always enqueue" fails for statefulsets. -/
theorem statefulSetDelete_not_enqueued_counterexample :
    statefulSetFilter ⟨"ns", "sts", [(ClusterLabel, "example-ndb")], true⟩ = true ∧
    routeWorkloadEvent
      (.statefulSetDelete ⟨"ns", "sts", [(ClusterLabel, "example-ndb")], true⟩) = [] := by
  refine ⟨by decide, rfl⟩

/-- Claim C6 (amended): a delete of an owned deployment carrying the identity
label always enqueues the owning NdbCluster key, while a delete of a
statefulset never enqueues anything (no delete handler is registered for
statefulsets). -/
theorem deploymentDelete_enqueues_statefulSetDelete_does_not
    (d : Deployment) (s : StatefulSet) :
    (deploymentFilter d = true →
      routeWorkloadEvent (.deploymentDelete d) = [deploymentOwnerKey d]) ∧
    routeWorkloadEvent (.statefulSetDelete s) = [] := by
  constructor
  · intro hf
    simp [routeWorkloadEvent, hf]
  · rfl

/-- Witness for the amended C6 at concrete labelled workloads. -/
theorem deploymentDelete_enqueues_statefulSetDelete_does_not_witness :
    (routeWorkloadEvent
      (.deploymentDelete ⟨"ns", "dep", [(ClusterLabel, "example-ndb")], true⟩) =
        [deploymentOwnerKey ⟨"ns", "dep", [(ClusterLabel, "example-ndb")], true⟩]) ∧
    routeWorkloadEvent
      (.statefulSetDelete ⟨"ns", "sts", [(ClusterLabel, "example-ndb")], true⟩) = [] :=
  ⟨(deploymentDelete_enqueues_statefulSetDelete_does_not
      ⟨"ns", "dep", [(ClusterLabel, "example-ndb")], true⟩
      ⟨"ns", "sts", [(ClusterLabel, "example-ndb")], true⟩).1 (by decide),
   (deploymentDelete_enqueues_statefulSetDelete_does_not
      ⟨"ns", "dep", [(ClusterLabel, "example-ndb")], true⟩
      ⟨"ns", "sts", [(ClusterLabel, "example-ndb")], true⟩).2⟩

/-- Claim C7 counterexample: an update of an owned deployment that was
already complete before the update and is still complete after it DOES
re-enqueue the owning key — the handler reads only the new object, so the
routing is level-triggered on the new state, not edge-triggered. -/
theorem workloadUpdate_not_edge_triggered_counterexample :
    deploymentComplete ⟨"ns", "dep", [(ClusterLabel, "example-ndb")], true⟩ = true ∧
    routeWorkloadEvent
      (.deploymentUpdate ⟨"ns", "dep", [(ClusterLabel, "example-ndb")], true⟩
        ⟨"ns", "dep", [(ClusterLabel, "example-ndb")], true⟩) =
      [deploymentOwnerKey ⟨"ns", "dep", [(ClusterLabel, "example-ndb")], true⟩] := by
  refine ⟨rfl, rfl⟩

/-- Claim C7 (amended): for an update of an owned workload carrying the
identity label on both sides, the owning key is enqueued iff the NEW object
is complete (deployment) / ready (statefulset); the old object's state is
never consulted, so the routing is level-triggered on the new state. -/
theorem workloadUpdate_enqueue_iff_new_terminal
    (oldD newD : Deployment) (oldS newS : StatefulSet) :
    (deploymentFilter oldD = true → deploymentFilter newD = true →
      routeWorkloadEvent (.deploymentUpdate oldD newD) =
        (if deploymentComplete newD then [deploymentOwnerKey newD] else [])) ∧
    (statefulSetFilter oldS = true → statefulSetFilter newS = true →
      routeWorkloadEvent (.statefulSetUpdate oldS newS) =
        (if statefulsetReady newS then [statefulSetOwnerKey newS] else [])) := by
  constructor
  · intro ho hn
    simp [routeWorkloadEvent, ho, hn]
  · intro ho hn
    simp [routeWorkloadEvent, ho, hn]

/-- Witness for the amended C7: a not-yet-complete update enqueues nothing,
a complete one enqueues the owner key. -/
theorem workloadUpdate_enqueue_iff_new_terminal_witness :
    (routeWorkloadEvent
      (.deploymentUpdate ⟨"ns", "dep", [(ClusterLabel, "example-ndb")], false⟩
        ⟨"ns", "dep", [(ClusterLabel, "example-ndb")], false⟩) =
      (if deploymentComplete ⟨"ns", "dep", [(ClusterLabel, "example-ndb")], false⟩
        then [deploymentOwnerKey ⟨"ns", "dep", [(ClusterLabel, "example-ndb")], false⟩]
        else [])) ∧
    (routeWorkloadEvent
      (.statefulSetUpdate ⟨"ns", "sts", [(ClusterLabel, "example-ndb")], false⟩
        ⟨"ns", "sts", [(ClusterLabel, "example-ndb")], true⟩) =
      (if statefulsetReady ⟨"ns", "sts", [(ClusterLabel, "example-ndb")], true⟩
        then [statefulSetOwnerKey ⟨"ns", "sts", [(ClusterLabel, "example-ndb")], true⟩]
        else [])) :=
  ⟨(workloadUpdate_enqueue_iff_new_terminal
      ⟨"ns", "dep", [(ClusterLabel, "example-ndb")], false⟩
      ⟨"ns", "dep", [(ClusterLabel, "example-ndb")], false⟩
      ⟨"ns", "sts", [(ClusterLabel, "example-ndb")], false⟩
      ⟨"ns", "sts", [(ClusterLabel, "example-ndb")], true⟩).1 (by decide) (by decide),
   (workloadUpdate_enqueue_iff_new_terminal
      ⟨"ns", "dep", [(ClusterLabel, "example-ndb")], false⟩
      ⟨"ns", "dep", [(ClusterLabel, "example-ndb")], false⟩
      ⟨"ns", "sts", [(ClusterLabel, "example-ndb")], false⟩
      ⟨"ns", "sts", [(ClusterLabel, "example-ndb")], true⟩).2 (by decide) (by decide)⟩

/-! ## Worker loop and sync handler (src/unnamed/part_001) -/

/-- Modelled from the spec: the `syncResult` type returned by each pass and
its accessors `getError` / `requeueSync` are declared outside the embedded
sources; per the spec's error/requeue taxonomy a pass carries an optional
error and, on success, an optional fixed requeue delay. -/
structure syncResult where
  err : Option String
  requeueInterval : Option Nat
  deriving DecidableEq, Repr

/-- Modelled from the spec: `finishProcessing()` — the success-complete
result (no error, no requeue) returned when the key must be dropped with no
retry. -/
def finishProcessing : syncResult := ⟨none, none⟩

/-- Modelled from the spec: `errorWhileProcessing(err)` — the
transient-error result that triggers a rate-limited retry. -/
def errorWhileProcessing (e : String) : syncResult := ⟨some e, none⟩

/-- An item popped from the work queue: the `item.(string)` type assertion
in `processNextWorkItem` succeeds exactly on `strKey`. -/
inductive WorkItem
  | strKey (key : String)
  | nonString
  deriving DecidableEq, Repr

/-- Observable effects of one `processNextWorkItem` iteration on the work
queue (plus the one error log the code emits), in execution order; the
deferred `Done(item)` always runs last. Info-level logging is not modelled. -/
inductive QueueEffect
  | forget (item : WorkItem)
  | addRateLimited (key : String)
  | addAfter (item : WorkItem) (interval : Nat)
  | logInternalError
  | done (item : WorkItem)
  deriving DecidableEq, Repr

/-- `Controller.processNextWorkItem`, as a function of the outcome of
`workqueue.Get()` (`none` = shutdown) and of `syncHandler` (passed in as a
function on keys). Returns the `continueProcessing` flag and the queue
effects in execution order:
  * shutdown → return false, nothing touched;
  * non-string item → `Forget`, error log, deferred `Done`, continue;
  * sync error → `AddRateLimited(key)` (no `Forget`), deferred `Done`,
    continue;
  * success → `Forget`, plus `AddAfter(item, interval)` when the result
    requests a requeue, deferred `Done`, continue. -/
def processNextWorkItem (sync : String → syncResult) :
    Option WorkItem → Bool × List QueueEffect
  | none => (false, [])
  | some item =>
    match item with
    | .nonString => (true, [.forget item, .logInternalError, .done item])
    | .strKey key =>
      let sr := sync key
      match sr.err with
      | some _ => (true, [.addRateLimited key, .done item])
      | none =>
        match sr.requeueInterval with
        | some d => (true, [.forget item, .addAfter item d, .done item])
        | none => (true, [.forget item, .done item])

/-- Result of `ndbsLister.NdbClusters(namespace).Get(name)`: the resource,
a not-found error, or any other error. The lister is external state, so it
is a parameter of the embedded `syncHandler`. -/
inductive ListerGetResult
  | found (ndb : NdbCluster)
  | notFound
  | otherError (e : String)
  deriving DecidableEq, Repr

/-- Splitting a character list on the slash separator, the semantics of Go's
`strings.Split(key, "/")` (an empty input yields one empty segment). -/
def splitSegments : List Char → List (List Char)
  | [] => [[]]
  | c :: rest =>
    if c = '/' then
      [] :: splitSegments rest
    else
      match splitSegments rest with
      | [] => [[c]]
      | seg :: segs => (c :: seg) :: segs

/-- `cache.SplitMetaNamespaceKey`: a key with no slash is a bare name, one
slash splits into namespace and name, anything else is a malformed-key
error (`none`). -/
def splitMetaNamespaceKey (key : String) : Option (String × String) :=
  match (splitSegments key.data).map String.mk with
  | [name] => some ("", name)
  | [ns, name] => some (ns, name)
  | _ => none

/-- `Controller.syncHandler`: on a malformed key, finish with no retry (a
permanent error); on a vanished resource (not-found), finish with no retry;
on any other lister error, return it for a retry; otherwise deep-copy the
resource and run the sync state machine on it (`SyncContext.sync`, passed in
as a parameter since its body lies outside the embedded sources). -/
def syncHandler (listerGet : String → String → ListerGetResult)
    (contextSync : NdbCluster → syncResult) (key : String) : syncResult :=
  match splitMetaNamespaceKey key with
  | none => finishProcessing
  | some (ns, name) =>
    match listerGet ns name with
    | .notFound => finishProcessing
    | .otherError e => errorWhileProcessing e
    | .found ndb => contextSync ndb

/-! ## Claims about the worker loop and sync handler -/

/-- Claim C8: each processed string key maps to exactly one queue action —
an erroring sync re-adds the key rate-limited and does not forget its backoff
state; a successful sync forgets the backoff state and additionally re-adds
the item after the requested delay when a requeue is requested; in every
case the key is re-added or deliberately forgotten, never dropped by a
transient error. -/
theorem processNextWorkItem_maps_result_to_queue_action
    (sync : String → syncResult) (key : String) :
    ((sync key).err.isSome →
      (processNextWorkItem sync (some (.strKey key))).2 =
        [.addRateLimited key, .done (.strKey key)]) ∧
    ((sync key).err = none →
      (∀ d, (sync key).requeueInterval = some d →
        (processNextWorkItem sync (some (.strKey key))).2 =
          [.forget (.strKey key), .addAfter (.strKey key) d, .done (.strKey key)]) ∧
      ((sync key).requeueInterval = none →
        (processNextWorkItem sync (some (.strKey key))).2 =
          [.forget (.strKey key), .done (.strKey key)])) := by
  refine ⟨fun herr => ?_, fun herr => ⟨fun d hd => ?_, fun hd => ?_⟩⟩
  · obtain ⟨e, he⟩ := Option.isSome_iff_exists.mp herr
    simp [processNextWorkItem, he]
  · simp [processNextWorkItem, herr, hd]
  · simp [processNextWorkItem, herr, hd]

/-- Witness for C8: the three queue actions at three concrete sync
outcomes. -/
theorem processNextWorkItem_maps_result_to_queue_action_witness :
    ((processNextWorkItem (fun _ => errorWhileProcessing "api failure")
        (some (.strKey "ns/x"))).2 =
      [.addRateLimited "ns/x", .done (.strKey "ns/x")]) ∧
    ((processNextWorkItem (fun _ => ⟨none, some 10⟩) (some (.strKey "ns/x"))).2 =
      [.forget (.strKey "ns/x"), .addAfter (.strKey "ns/x") 10, .done (.strKey "ns/x")]) ∧
    ((processNextWorkItem (fun _ => finishProcessing) (some (.strKey "ns/x"))).2 =
      [.forget (.strKey "ns/x"), .done (.strKey "ns/x")]) :=
  ⟨(processNextWorkItem_maps_result_to_queue_action
      (fun _ => errorWhileProcessing "api failure") "ns/x").1 rfl,
   ((processNextWorkItem_maps_result_to_queue_action
      (fun _ => ⟨none, some 10⟩) "ns/x").2 rfl).1 10 rfl,
   ((processNextWorkItem_maps_result_to_queue_action
      (fun _ => finishProcessing) "ns/x").2 rfl).2 rfl⟩

/-- Claim C9: a malformed key or a vanished (not-found) resource makes
`syncHandler` return the finished success result, so the worker drops the
key with no retry; any other lister error is returned as an error result,
which triggers a retry. -/
theorem syncHandler_notFound_and_badKey_finish
    (listerGet : String → String → ListerGetResult)
    (contextSync : NdbCluster → syncResult) (key : String) :
    (splitMetaNamespaceKey key = none →
      syncHandler listerGet contextSync key = finishProcessing) ∧
    (∀ ns name, splitMetaNamespaceKey key = some (ns, name) →
      (listerGet ns name = .notFound →
        syncHandler listerGet contextSync key = finishProcessing) ∧
      (∀ e, listerGet ns name = .otherError e →
        syncHandler listerGet contextSync key = errorWhileProcessing e ∧
        (syncHandler listerGet contextSync key).err.isSome)) := by
  refine ⟨fun hk => ?_, fun ns name hk => ⟨fun hnf => ?_, fun e he => ?_⟩⟩
  · simp [syncHandler, hk]
  · simp [syncHandler, hk, hnf]
  · simp [syncHandler, hk, he, errorWhileProcessing]

/-- Witness for C9 at a concrete malformed key, a concrete not-found lookup
and a concrete failing lookup. -/
theorem syncHandler_notFound_and_badKey_finish_witness :
    (syncHandler (fun _ _ => .notFound) (fun _ => ⟨none, some 5⟩) "a/b/c" =
      finishProcessing) ∧
    (syncHandler (fun _ _ => .notFound) (fun _ => ⟨none, some 5⟩) "ns/x" =
      finishProcessing) ∧
    (syncHandler (fun _ _ => .otherError "boom") (fun _ => ⟨none, some 5⟩) "ns/x" =
      errorWhileProcessing "boom") :=
  ⟨(syncHandler_notFound_and_badKey_finish (fun _ _ => .notFound)
      (fun _ => ⟨none, some 5⟩) "a/b/c").1 (by decide),
   (((syncHandler_notFound_and_badKey_finish (fun _ _ => .notFound)
      (fun _ => ⟨none, some 5⟩) "ns/x").2 "ns" "x" (by decide)).1 rfl),
   ((((syncHandler_notFound_and_badKey_finish (fun _ _ => .otherError "boom")
      (fun _ => ⟨none, some 5⟩) "ns/x").2 "ns" "x" (by decide)).2 "boom" rfl).1)⟩

/-- Claim C10: a non-string work item is forgotten (never retried), an
internal error is logged, the deferred `Done` releases it, and the worker
keeps going; `processNextWorkItem` returns `false` exactly on queue
shutdown, `true` on every popped item. -/
theorem processNextWorkItem_nonString_and_shutdown (sync : String → syncResult) :
    processNextWorkItem sync (some .nonString) =
      (true, [.forget .nonString, .logInternalError, .done .nonString]) ∧
    (processNextWorkItem sync none).1 = false ∧
    (∀ item, (processNextWorkItem sync (some item)).1 = true) := by
  refine ⟨rfl, rfl, fun item => ?_⟩
  match item with
  | .nonString => rfl
  | .strKey key =>
      simp only [processNextWorkItem]
      match (sync key).err with
      | some _ => rfl
      | none =>
          match (sync key).requeueInterval with
          | some _ => rfl
          | none => rfl

/-! ## Sync engine state machine (C2) -/

/-- Modelled from the spec: the observable state driven by
`SyncContext.sync`, whose body lies outside the embedded sources. Fields
owned by the engine: `processedGeneration` (status), the last written config
version and the generation it was derived from (the durable checkpoint);
fields owned by the environment: `generation` (API server spec writes),
`allWorkloadsHealthy` (step 2's observed health gate) and
`liveConfigVersion` (the rollout progress of the platform). -/
structure SyncState where
  generation : Int
  processedGeneration : Int
  allWorkloadsHealthy : Bool
  liveConfigVersion : Nat
  lastWrittenConfigVersion : Nat
  configGeneration : Int
  deriving DecidableEq, Repr

/-- Modelled from the spec: the poll interval used for a delayed re-enqueue
while convergence is pending. -/
def pollInterval : Nat := 5

/-- A success result that asks for a delayed re-enqueue. -/
def requeueAfter (d : Nat) : syncResult := ⟨none, some d⟩

/-- Modelled from the spec: one pass of the sync state machine
(`SyncContext.sync`, spec section on the Sync Engine): step 1 ensures owned
resources exist (no observable field here); step 2 stops with a poll
re-enqueue while any owned workload is unhealthy; step 3 stops with a poll
re-enqueue while the live workloads do not yet reflect the last written
config version; step 4, reached only with a healthy and converged cluster,
writes a new config version derived from the current generation when the
last one was derived from an older generation, and loops; step 5 patches
`status.processedGeneration` to the fully reconciled generation. -/
def syncPass (s : SyncState) : SyncState × syncResult :=
  if ¬ s.allWorkloadsHealthy then
    (s, requeueAfter pollInterval)
  else if s.liveConfigVersion ≠ s.lastWrittenConfigVersion then
    (s, requeueAfter pollInterval)
  else if s.configGeneration ≠ s.generation then
    ({ s with
        lastWrittenConfigVersion := s.lastWrittenConfigVersion + 1,
        configGeneration := s.generation }, requeueAfter 0)
  else if s.processedGeneration ≠ s.generation then
    ({ s with processedGeneration := s.generation }, finishProcessing)
  else
    (s, finishProcessing)

/-- A step of the overall system: either one reconciliation pass of the sync
engine, or an environment step (API server spec writes, workload health and
rollout progress) which never touches the engine-owned fields — the status
subresource and the durable config checkpoint are written only by the
engine. -/
inductive OperatorStep : SyncState → SyncState → Prop
  | sync (s : SyncState) : OperatorStep s (syncPass s).1
  | env (s s' : SyncState)
      (hpg : s'.processedGeneration = s.processedGeneration)
      (hcv : s'.lastWrittenConfigVersion = s.lastWrittenConfigVersion)
      (hcg : s'.configGeneration = s.configGeneration) :
      OperatorStep s s'

/-- One system step changing `processedGeneration` must be a sync pass whose
health gate observed every owned workload healthy. -/
theorem operatorStep_processedGeneration_change_healthy
    (s s2 : SyncState) (h : OperatorStep s s2)
    (hch : s2.processedGeneration ≠ s.processedGeneration) :
    s.allWorkloadsHealthy = true := by
  cases h with
  | env _ hpg hcv hcg => exact absurd hpg hch
  | sync =>
      by_cases hh : s.allWorkloadsHealthy
      · exact hh
      · exact absurd (by simp [syncPass, hh]) hch

/-- Claim C2: across any sequence of system steps, `processedGeneration`
changes only in a reconciliation pass whose step-2 health gate observed
every owned workload healthy — a new generation is never accepted while the
gate is failing, so a new declared change is never overlaid on an
in-progress rollout. -/
theorem processedGeneration_changes_only_when_healthy
    (f : Nat → SyncState) (hsteps : ∀ i, OperatorStep (f i) (f (i + 1)))
    (i : Nat)
    (hchange : (f (i + 1)).processedGeneration ≠ (f i).processedGeneration) :
    (f i).allWorkloadsHealthy = true :=
  operatorStep_processedGeneration_change_healthy (f i) (f (i + 1)) (hsteps i) hchange

/-- The trace used by the C2 witness: iterate the sync pass from a healthy,
converged state with outstanding work (generation 3 processed only up to 1). -/
def syncTraceExample (n : Nat) : SyncState :=
  Nat.rec (motive := fun _ => SyncState)
    (⟨3, 1, true, 4, 4, 3⟩ : SyncState) (fun _ s => (syncPass s).1) n

/-- Witness for C2: along the concrete trace, the very first pass changes
`processedGeneration`, and the theorem yields that its pre-state was
healthy. -/
theorem processedGeneration_changes_only_when_healthy_witness :
    (syncTraceExample 0).allWorkloadsHealthy = true :=
  processedGeneration_changes_only_when_healthy syncTraceExample
    (fun i => OperatorStep.sync (syncTraceExample i)) 0 (by decide)
